import Mathlib

/-!
Verification development for the server-provisioning webhook repository.

The definitions below are a shallow embedding of the Python sources:
  app/utils.py, app/api.py, app/models.py, app/config.py,
  app/services/kubernetes copy.py.
External effects (Kubernetes API calls, monitor registrations, outcome
notifications) are made explicit: every operation returns its result
together with the ordered list of cluster API calls it issued.
-/

namespace ProvWebhook

/-! ## Python string / character helpers (faithful building blocks) -/

/-- Decimal digit test, as used implicitly by `int()` on digit-only slices. -/
def pyIsDigit (c : Char) : Bool := '0' ≤ c && c ≤ '9'

/-- Value of a decimal digit character. -/
def digitVal (c : Char) : Nat := c.toNat - '0'.toNat

/-- Numeric value of a digit string (most significant first). -/
def natOfDigits (cs : List Char) : Nat := cs.foldl (fun a c => a * 10 + digitVal c) 0

/-- Python `c in s` membership test on a character list. -/
def containsChar (c : Char) : List Char → Bool
  | [] => false
  | x :: xs => x = c || containsChar c xs

/-- Python `s.replace('Z', '+00:00')`: replace every occurrence of `'Z'`
    (utils.py:92). -/
def replaceZ : List Char → List Char
  | [] => []
  | c :: cs =>
    if c = 'Z' then '+' :: '0' :: '0' :: ':' :: '0' :: '0' :: replaceZ cs
    else c :: replaceZ cs

/-- Python `s.rsplit(sep, 1)` when it yields two parts: split at the LAST
    occurrence of `sep`; `none` when `sep` does not occur (in which case the
    two-variable unpacking in utils.py raises `ValueError`). -/
def rsplitOnce (sep : Char) : List Char → Option (List Char × List Char)
  | [] => none
  | c :: cs =>
    match rsplitOnce sep cs with
    | some (l, r) => some (c :: l, r)
    | none => if c = sep then some ([], cs) else none

/-- Split at the FIRST occurrence of `c` (models `str.find` + slicing in the
    CPython `fromisoformat` time-zone scan). -/
def splitAtFirst (c : Char) : List Char → Option (List Char × List Char)
  | [] => none
  | x :: xs =>
    if x = c then some ([], xs)
    else
      match splitAtFirst c xs with
      | some (l, r) => some (x :: l, r)
      | none => none

/-- Python `cs.ljust(6, '0')`. -/
def padSixZeros (cs : List Char) : List Char := cs ++ List.replicate (6 - cs.length) '0'

/-- Python `fractional[:6].ljust(6, '0')` (utils.py:102 and utils.py:108). -/
def fracFix (cs : List Char) : List Char := padSixZeros (cs.take 6)

/-! ## `datetime` model

A parsed `datetime.datetime` value.  `tzOffsetMicros = none` models a naive
datetime; `some off` models an aware one with a fixed UTC offset of `off`
microseconds. -/

structure PyDatetime where
  year : Nat
  month : Nat
  day : Nat
  hour : Nat
  minute : Nat
  second : Nat
  microsecond : Nat
  tzOffsetMicros : Option Int
deriving Repr, DecidableEq

/-- Gregorian leap-year rule (as in `datetime`). -/
def isLeap (y : Nat) : Bool := y % 4 = 0 && (y % 100 ≠ 0 || y % 400 = 0)

/-- Days in a month. -/
def daysInMonth (y m : Nat) : Nat :=
  if m = 2 then (if isLeap y then 29 else 28)
  else if m = 4 || m = 6 || m = 9 || m = 11 then 30
  else 31

/-- `datetime` constructor range validation for a date. -/
def validDate (y m d : Nat) : Bool :=
  1 ≤ y && y ≤ 9999 && 1 ≤ m && m ≤ 12 && 1 ≤ d && d ≤ daysInMonth y m

/-- Days before January 1st of year `y` in the proleptic Gregorian calendar. -/
def daysBeforeYear (y : Nat) : Nat :=
  365 * (y - 1) + (y - 1) / 4 - (y - 1) / 100 + (y - 1) / 400

/-- Days in year `y` before month `m` begins. -/
def daysBeforeMonth (y m : Nat) : Nat :=
  let base :=
    if m = 1 then 0 else if m = 2 then 31 else if m = 3 then 59 else if m = 4 then 90
    else if m = 5 then 120 else if m = 6 then 151 else if m = 7 then 181
    else if m = 8 then 212 else if m = 9 then 243 else if m = 10 then 273
    else if m = 11 then 304 else 334
  if 2 < m && isLeap y then base + 1 else base

/-- Proleptic Gregorian ordinal of a date (`datetime.toordinal`). -/
def toOrdinal (y m d : Nat) : Nat := daysBeforeYear y + daysBeforeMonth y m + d

/-- Microseconds of the naive fields since the calendar epoch. -/
def PyDatetime.naiveMicros (dt : PyDatetime) : Int :=
  ((toOrdinal dt.year dt.month dt.day * 86400
      + dt.hour * 3600 + dt.minute * 60 + dt.second : Nat) : Int) * 1000000
    + (dt.microsecond : Int)

/-- Comparison key: UTC instant for aware values, wall-clock for naive ones. -/
def PyDatetime.sortKey (dt : PyDatetime) : Int :=
  dt.naiveMicros - (dt.tzOffsetMicros.getD 0)

/-- Python `a <= b` on datetimes: mixing naive and aware raises `TypeError`. -/
def pyLe (a b : PyDatetime) : Except String Bool :=
  if a.tzOffsetMicros.isSome = b.tzOffsetMicros.isSome then
    Except.ok (decide (a.sortKey ≤ b.sortKey))
  else Except.error "TypeError: cannot compare naive and aware datetimes"

/-- Python `a < b` on datetimes: mixing naive and aware raises `TypeError`. -/
def pyLt (a b : PyDatetime) : Except String Bool :=
  if a.tzOffsetMicros.isSome = b.tzOffsetMicros.isSome then
    Except.ok (decide (a.sortKey < b.sortKey))
  else Except.error "TypeError: cannot compare naive and aware datetimes"

/-! ## `datetime.fromisoformat` (classic CPython behaviour)

Accepts the formats emitted by `datetime.isoformat`:
`YYYY-MM-DD[<sep>HH[:MM[:SS[.fff[fff]]]]][(+|-)HH:MM[:SS[.ffffff]]]`. -/

/-- `_parse_hh_mm_ss_ff`: hour / minute / second / microsecond components,
    with a fraction of exactly 3 or 6 digits. -/
def parseHMSF : List Char → Option (Nat × Nat × Nat × Nat)
  | [a, b] =>
    if pyIsDigit a && pyIsDigit b then some (natOfDigits [a, b], 0, 0, 0) else none
  | [a, b, ':', c, d] =>
    if pyIsDigit a && pyIsDigit b && pyIsDigit c && pyIsDigit d then
      some (natOfDigits [a, b], natOfDigits [c, d], 0, 0)
    else none
  | [a, b, ':', c, d, ':', e, f] =>
    if pyIsDigit a && pyIsDigit b && pyIsDigit c && pyIsDigit d
        && pyIsDigit e && pyIsDigit f then
      some (natOfDigits [a, b], natOfDigits [c, d], natOfDigits [e, f], 0)
    else none
  | [a, b, ':', c, d, ':', e, f, '.', g, h, i] =>
    if pyIsDigit a && pyIsDigit b && pyIsDigit c && pyIsDigit d
        && pyIsDigit e && pyIsDigit f && pyIsDigit g && pyIsDigit h && pyIsDigit i then
      some (natOfDigits [a, b], natOfDigits [c, d], natOfDigits [e, f],
            natOfDigits [g, h, i] * 1000)
    else none
  | [a, b, ':', c, d, ':', e, f, '.', g, h, i, j, k, l] =>
    if pyIsDigit a && pyIsDigit b && pyIsDigit c && pyIsDigit d
        && pyIsDigit e && pyIsDigit f && pyIsDigit g && pyIsDigit h && pyIsDigit i
        && pyIsDigit j && pyIsDigit k && pyIsDigit l then
      some (natOfDigits [a, b], natOfDigits [c, d], natOfDigits [e, f],
            natOfDigits [g, h, i, j, k, l])
    else none
  | _ => none

/-- `_parse_isoformat_date`: `YYYY-MM-DD`, returning the remainder. -/
def parseDateChars : List Char → Option (Nat × Nat × Nat × List Char)
  | y1 :: y2 :: y3 :: y4 :: '-' :: m1 :: m2 :: '-' :: d1 :: d2 :: rest =>
    if pyIsDigit y1 && pyIsDigit y2 && pyIsDigit y3 && pyIsDigit y4
        && pyIsDigit m1 && pyIsDigit m2 && pyIsDigit d1 && pyIsDigit d2 then
      some (natOfDigits [y1, y2, y3, y4], natOfDigits [m1, m2], natOfDigits [d1, d2], rest)
    else none
  | _ => none

/-- Time-zone scan of `_parse_isoformat_time`: the FIRST `'-'` if any,
    otherwise the FIRST `'+'`, marks the offset; returns the time body,
    the sign and the offset string. -/
def tzSplit (cs : List Char) : List Char × Option (Int × List Char) :=
  match splitAtFirst '-' cs with
  | some (l, r) => (l, some (-1, r))
  | none =>
    match splitAtFirst '+' cs with
    | some (l, r) => (l, some (1, r))
    | none => (cs, none)

/-- `datetime.fromisoformat` on a character list. -/
def fromisoformatChars (cs : List Char) : Except String PyDatetime :=
  match parseDateChars cs with
  | none => Except.error "ValueError"
  | some (y, mo, d, rest) =>
    if validDate y mo d then
      match rest with
      | [] => Except.ok ⟨y, mo, d, 0, 0, 0, 0, none⟩
      | _sep :: tstr =>
        let (base, tzc) := tzSplit tstr
        match parseHMSF base with
        | none => Except.error "ValueError"
        | some (h, mi, s, us) =>
          if h ≤ 23 && mi ≤ 59 && s ≤ 59 then
            match tzc with
            | none => Except.ok ⟨y, mo, d, h, mi, s, us, none⟩
            | some (sign, tzstr) =>
              if tzstr.length = 5 || tzstr.length = 8 || tzstr.length = 15 then
                match parseHMSF tzstr with
                | none => Except.error "ValueError"
                | some (th, tm, ts, tus) =>
                  let off : Int :=
                    sign * (((th * 3600 + tm * 60 + ts) * 1000000 + tus : Nat) : Int)
                  if -86400000000 < off && off < 86400000000 then
                    Except.ok ⟨y, mo, d, h, mi, s, us, some off⟩
                  else Except.error "ValueError"
              else Except.error "ValueError"
          else Except.error "ValueError"
    else Except.error "ValueError"

/-- Normalisation performed by `parse_timestamp` before conversion
    (utils.py:92-109): replace `'Z'`, then truncate the fractional part to six
    digits.  `none` models a `ValueError` raised during the rewriting itself. -/
def preprocessChars (cs₀ : List Char) : Option (List Char) :=
  let cs := replaceZ cs₀
  if containsChar '.' cs then
    if containsChar '+' cs then
      match rsplitOnce '+' cs with
      | none => none
      | some (dtPart, tzPart) =>
        match rsplitOnce '.' dtPart with
        | none => none
        | some (dt, frac) => some (dt ++ '.' :: fracFix frac ++ '+' :: tzPart)
    else
      match rsplitOnce '.' cs with
      | none => none
      | some (dt, frac) => some (dt ++ '.' :: fracFix frac)
  else some cs

/-- `parse_timestamp` (utils.py:77-114): normalise, convert, and collapse any
    `ValueError` into the single message raised at utils.py:114. -/
def parse_timestamp (s : String) : Except String PyDatetime :=
  match preprocessChars s.data with
  | none => Except.error "Invalid timestamp format"
  | some cs =>
    match fromisoformatChars cs with
    | Except.ok d => Except.ok d
    | Except.error _ => Except.error "Invalid timestamp format"

/-! ## Configuration (app/config.py)

Environment-derived values consumed by the embedded functions.  Dictionaries
are modelled as association lists with `dict.get`-style lookup. -/

structure Config where
  k8s_namespace : String
  provision_image : String
  provision_checksum : String
  provision_checksum_type : String
  os_images : List (String × String)
  os_checksums : List (String × String)
  provisioning_timeout : Nat
deriving Repr, DecidableEq

/-- Python `d.get(key, default)` on an association-list dictionary. -/
def dictGetD (l : List (String × String)) (k d : String) : String :=
  match l.find? (fun p => p.1 = k) with
  | some p => p.2
  | none => d

/-- Python truthiness of an `Optional[str]`: `None` and `""` are falsy. -/
def truthyStr : Option String → Bool
  | none => false
  | some s => !s.isEmpty

/-! ## Cloud-config document (kubernetes copy.py:22-41 and 55-75) -/

structure CloudUser where
  name : String
  groups : String
  lock_passwd : Bool
  passwd : Option String
  sudo_rule : String  -- the template's "sudo" key (`sudo` is a Mathlib token)
  ssh_authorized_keys : Option (List String)
deriving Repr, DecidableEq

structure CloudConfig where
  ssh_pwauth : Bool
  groups : List String
  users : List CloudUser
deriving Repr, DecidableEq

/-- First user of `CLOUD_CONFIG_TEMPLATE`: the administrative account. -/
def adminUser : CloudUser :=
  { name := "restart.admin"
    groups := "admingroup"
    lock_passwd := false
    passwd := some "$6$/O/rvHuhqfc00hDw$3X4ILugPTXw9JTtgWNh16oeFqLcsMOaPwzk7TBxtwm5QXa2vALMC2W7/JToC99ngxpKla80QpVAEs3jA8I0rk0"
    sudo_rule := "ALL=(ALL) NOPASSWD:ALL"
    ssh_authorized_keys := none }

/-- Second user of `CLOUD_CONFIG_TEMPLATE`: the externally-reachable account
    whose key list is populated dynamically. -/
def prognoseUser : CloudUser :=
  { name := "prognose"
    groups := "cloud-users"
    lock_passwd := true
    passwd := none
    sudo_rule := "ALL=(ALL) NOPASSWD:ALL"
    ssh_authorized_keys := some [] }

/-- `CLOUD_CONFIG_TEMPLATE` (kubernetes copy.py:22-41). -/
def CLOUD_CONFIG_TEMPLATE : CloudConfig :=
  { ssh_pwauth := true
    groups := ["admingroup", "cloud-users"]
    users := [adminUser, prognoseUser] }

/-- The loop of `_generate_cloud_config` (kubernetes copy.py:70-73): walk the
    copied user list, set `ssh_authorized_keys` on the first user named
    `"prognose"`, and stop (`break`). -/
def setPrognoseKeys (keys : List String) : List CloudUser → List CloudUser
  | [] => []
  | u :: us =>
    if u.name = "prognose" then { u with ssh_authorized_keys := some keys } :: us
    else u :: setPrognoseKeys keys us

/-- `UserDataSecretManager._generate_cloud_config` (kubernetes copy.py:55-75):
    copy the template and replace the `"prognose"` user's authorized keys with
    the singleton list `[ssh_key]`.  The source then serialises the document
    as `"#cloud-config\n" + yaml.dump(...)`; the claims concern the document's
    content, so the structured value is returned. -/
def generate_cloud_config (ssh_key : String) : CloudConfig :=
  { CLOUD_CONFIG_TEMPLATE with
    users := setPrognoseKeys [ssh_key] CLOUD_CONFIG_TEMPLATE.users }

/-! ## Patches and cluster API calls -/

structure ImageSpec where
  url : String
  checksum : Option String
  checksumType : Option String
deriving Repr, DecidableEq

structure UserDataRef where
  name : String
  nspace : String
deriving Repr, DecidableEq

/-- A BareMetalHost `spec` patch.  `none` models JSON `null` / absence. -/
structure BMHPatch where
  image : Option ImageSpec
  userData : Option UserDataRef
deriving Repr, DecidableEq

/-- One outbound cluster API call, in submission order. -/
inductive K8sCall
  | createSecret (nspace name : String) (doc : CloudConfig)
  | patchSecret (nspace name : String) (doc : CloudConfig)
  | patchBMH (name : String) (patch : BMHPatch)
  | getBMH (name : String)
  | watchBMH (name : String) (timeoutSeconds : Nat)
deriving Repr, DecidableEq

/-- One event delivered by the status watch stream; `fault` models a
    transport-level exception raised while iterating the stream. -/
inductive WatchItem
  | ev (etype : String) (state : String)
  | fault
deriving Repr, DecidableEq

deriving instance DecidableEq for Except

/-- Outcome the cluster reports for `create_namespaced_secret`. -/
inductive SecretCreateOutcome
  | ok
  | conflict409
  | otherError
deriving Repr, DecidableEq

/-- Environment oracle: what the external cluster API answers to each call
    kind.  `getBMH` yields the host's `status.provisioning.state` string
    (`""` when absent) or an `ApiException`; `watchItems` is the bounded
    stream delivered before the watch's time budget runs out. -/
structure K8sEnv where
  secretCreate : SecretCreateOutcome
  secretPatchOk : Bool
  bmhPatchOk : Bool
  getBMH : Except Unit String
  watchItems : List WatchItem
deriving Repr, DecidableEq

/-- A background MonitorTask registration
    (`ProvisioningMonitor.start_monitoring_async`). -/
structure MonitorStart where
  bmh_name : String
  webhook_id : String
  user_id : String
  event_id : Option String
  timeout : Option Nat
deriving Repr, DecidableEq

/-! ## `UserDataSecretManager` and `BareMetalHostManager` -/

/-- `UserDataSecretManager.create_or_update` (kubernetes copy.py:111-156):
    create the secret; on 409 conflict update it in place; any other failure
    (including a failing update) returns `False`. -/
def create_or_update (cfg : Config) (env : K8sEnv) (bmh_name ssh_key : String) :
    Bool × List K8sCall :=
  let secret_name := bmh_name ++ "-userdata"
  let doc := generate_cloud_config ssh_key
  match env.secretCreate with
  | .ok => (true, [.createSecret cfg.k8s_namespace secret_name doc])
  | .conflict409 =>
    (env.secretPatchOk,
     [.createSecret cfg.k8s_namespace secret_name doc,
      .patchSecret cfg.k8s_namespace secret_name doc])
  | .otherError => (false, [.createSecret cfg.k8s_namespace secret_name doc])

/-- `BareMetalHostManager._create_provision_patch` (kubernetes copy.py:166-196). -/
def _create_provision_patch (cfg : Config) (image_url bmh_name : String)
    (checksum checksum_type : Option String) : BMHPatch :=
  { image := some { url := image_url, checksum := checksum, checksumType := checksum_type }
    userData := some { name := bmh_name ++ "-userdata", nspace := cfg.k8s_namespace } }

/-- `BareMetalHostManager._create_deprovision_patch` (kubernetes copy.py:198-210). -/
def _create_deprovision_patch : BMHPatch := { image := none, userData := none }

/-- `BareMetalHostManager._apply_patch` (kubernetes copy.py:212-255): submit
    the patch; an `ApiException` is caught and reported as `False`. -/
def _apply_patch (env : K8sEnv) (bmh_name : String) (patch : BMHPatch) :
    Bool × List K8sCall :=
  (env.bmhPatchOk, [.patchBMH bmh_name patch])

/-- `BareMetalHostManager.provision` (kubernetes copy.py:257-309): when
    `ssh_key` is truthy, write the user-data secret first and abort on
    failure; then submit the provision patch; on success with truthy
    `webhook_id` and `user_id`, register the asynchronous monitor. -/
def provision (cfg : Config) (env : K8sEnv) (bmh_name image_url : String)
    (ssh_key : Option String) (checksum checksum_type : Option String)
    (webhook_id user_id event_id : Option String) (timeout : Option Nat) :
    Bool × List K8sCall × List MonitorStart :=
  let secretStep : Bool × List K8sCall :=
    if truthyStr ssh_key then create_or_update cfg env bmh_name (ssh_key.getD "")
    else (true, [])
  if secretStep.1 then
    let patch := _create_provision_patch cfg image_url bmh_name checksum checksum_type
    let applied := _apply_patch env bmh_name patch
    let monitors : List MonitorStart :=
      if applied.1 && truthyStr webhook_id && truthyStr user_id then
        [{ bmh_name := bmh_name, webhook_id := webhook_id.getD "",
           user_id := user_id.getD "", event_id := event_id, timeout := timeout }]
      else []
    (applied.1, secretStep.2 ++ applied.2, monitors)
  else (false, secretStep.2, [])

/-- `BareMetalHostManager.deprovision` (kubernetes copy.py:311-322): submit
    the deprovision patch directly; no secret interaction. -/
def deprovision (env : K8sEnv) (bmh_name : String) : Bool × List K8sCall :=
  _apply_patch env bmh_name _create_deprovision_patch

/-- The watch loop of `wait_for_provisioning` (kubernetes copy.py:376-414):
    consume the bounded stream; `MODIFIED`/`ADDED` events with a terminal
    state or a `DELETED` event stop the watch; other events continue; an
    exhausted stream is the timeout; a transport fault is caught by the
    surrounding `except` and yields `False`. -/
def watchLoop : List WatchItem → Bool
  | [] => false
  | .fault :: _ => false
  | .ev etype state :: rest =>
    if etype = "MODIFIED" || etype = "ADDED" then
      if state = "provisioned" then true
      else if state = "error" || state = "failed" then false
      else watchLoop rest
    else if etype = "DELETED" then false
    else watchLoop rest

/-- `BareMetalHostManager.wait_for_provisioning` (kubernetes copy.py:324-421):
    read the current state first and conclude immediately on a terminal
    state (or fail on an `ApiException`); otherwise open the watch, bounded
    by `timeout or config.PROVISIONING_TIMEOUT`. -/
def wait_for_provisioning (cfg : Config) (env : K8sEnv) (bmh_name : String)
    (timeout : Option Nat) : Bool × List K8sCall :=
  let t := match timeout with
    | some v => if v = 0 then cfg.provisioning_timeout else v
    | none => cfg.provisioning_timeout
  match env.getBMH with
  | .error _ => (false, [.getBMH bmh_name])
  | .ok current_state =>
    if current_state = "provisioned" then (true, [.getBMH bmh_name])
    else if current_state = "error" || current_state = "failed" then
      (false, [.getBMH bmh_name])
    else (watchLoop env.watchItems, [.getBMH bmh_name, .watchBMH bmh_name t])

/-- One delivery to the Outcome Notifier
    (`ProvisioningMonitor._send_notification`, kubernetes copy.py:510-577).
    The helper performs the external notification and the audit-log delivery
    in one invocation and swallows every delivery failure. -/
structure OutcomeNotification where
  webhook_id : String
  user_id : String
  resource_name : String
  success : Bool
  error_message : Option String
  event_id : Option String
deriving Repr, DecidableEq

/-- `ProvisioningMonitor._monitor_provisioning_completion`
    (kubernetes copy.py:460-508): wait for the transition, then notify the
    outcome exactly once.  `wait_for_provisioning` catches its own
    exceptions and `_send_notification` swallows delivery failures, so the
    `except` branch of the monitor body is unreachable. -/
def _monitor_provisioning_completion (cfg : Config) (env : K8sEnv)
    (bmh_name webhook_id user_id : String) (event_id : Option String)
    (timeout : Option Nat) : List K8sCall × List OutcomeNotification :=
  let r := wait_for_provisioning cfg env bmh_name timeout
  let error_message : Option String :=
    if r.1 then none else some "Provisioning timeout or failed"
  (r.2,
   [{ webhook_id := webhook_id, user_id := user_id, resource_name := bmh_name,
      success := r.1, error_message := error_message, event_id := event_id }])

/-- Module-level `patch_baremetalhost` (kubernetes copy.py:585-623): a truthy
    `image_url` selects the provision path, anything else (None or `""`)
    selects deprovisioning. -/
def patch_baremetalhost (cfg : Config) (env : K8sEnv) (bmh_name : String)
    (image_url ssh_key : Option String) (checksum checksum_type : Option String)
    (webhook_id user_id event_id : Option String) (timeout : Option Nat) :
    Bool × List K8sCall × List MonitorStart :=
  if truthyStr image_url then
    provision cfg env bmh_name (image_url.getD "") ssh_key checksum checksum_type
      webhook_id user_id event_id timeout
  else
    let r := deprovision env bmh_name
    (r.1, r.2, [])

/-! ## Payload models (app/models.py)

`models.py` is the strict-mode variant: `WebhookPayload` carries explicit
`imageUrl` / `checksumUrl` / `imageFormat` fields and has NO
`operating_system` or `ssh_public_key` field. -/

structure WebhookPayload where
  event_type : String
  timestamp : String
  event_id : String
  webhook_id : Int
  user_id : Option String
  username : Option String
  email : Option String
  ssh_keys : Option (List String)
  image_url : Option String
  checksum_url : Option String
  image_format : Option String
  event_title : Option String
  event_description : Option String
  event_start : String
  event_end : String
  custom_parameters : Option String
  resource_id : Int
  resource_name : String
  resource_type : String
  resource_specs : Option String
  resource_location : Option String
  site_id : Option String
  site_name : Option String
deriving Repr, DecidableEq

structure EventResourceInfo where
  name : String
  id : Int
  specs : Option String
  location : Option String
deriving Repr, DecidableEq

/-- `EventData`; the source field `end` is a Lean keyword, kept as `endStr`. -/
structure EventData where
  id : Int
  start : String
  endStr : String
  custom_parameters : Option String
  resource : EventResourceInfo
  keycloak_id : Option String
deriving Repr, DecidableEq

structure EventWebhookPayload where
  event_type : String
  timestamp : String
  webhook_id : String
  data : EventData
deriving Repr, DecidableEq

/-! ## utils.py -/

/-- Exceptions raised inside `handle_provision_event`'s `try` block. -/
inductive PyError
  | attributeError (msg : String)
  | typeError (msg : String)
deriving Repr, DecidableEq

/-- `get_image_details` (utils.py:153-170): resolve image URL / checksum /
    checksum type from the per-OS tables, falling back to the configured
    defaults when the slug is missing or unknown. -/
def get_image_details (cfg : Config) (os_slug : Option String) :
    String × String × String :=
  if truthyStr os_slug then
    let slug := (os_slug.getD "").toLower
    (dictGetD cfg.os_images slug cfg.provision_image,
     dictGetD cfg.os_checksums slug cfg.provision_checksum,
     cfg.provision_checksum_type)
  else (cfg.provision_image, cfg.provision_checksum, cfg.provision_checksum_type)

/-- Python attribute access `payload.operating_system` (utils.py:188):
    `models.WebhookPayload` declares no `operating_system` field, so pydantic
    raises `AttributeError`. -/
def getattr_operating_system (_p : WebhookPayload) : Except PyError (Option String) :=
  Except.error (.attributeError "WebhookPayload object has no attribute operating_system")

/-- Python attribute access `payload.ssh_public_key` (utils.py:194):
    `models.WebhookPayload` declares no `ssh_public_key` field, so pydantic
    raises `AttributeError`. -/
def getattr_ssh_public_key (_p : WebhookPayload) : Except PyError (Option String) :=
  Except.error (.attributeError "WebhookPayload object has no attribute ssh_public_key")

/-- The call `kubernetes.patch_baremetalhost(..., ssh_keys=ssh_keys_list, ...)`
    (utils.py:202-213): the kubernetes module's `patch_baremetalhost`
    (kubernetes copy.py:585-596) has a parameter `ssh_key`, not `ssh_keys`,
    so the keyword invocation raises `TypeError` before the function body
    runs; no cluster call is issued. -/
def call_patch_baremetalhost_sshKeysKw :
    Except PyError (Bool × List K8sCall × List MonitorStart) :=
  Except.error
    (.typeError "patch_baremetalhost got an unexpected keyword argument ssh_keys")

/-- The `try` body of `handle_provision_event` (utils.py:186-234), with each
    raising step explicit.  Every raising step precedes the first outbound
    call, so an error carries no calls. -/
def handle_provision_event_body (cfg : Config) (payload : WebhookPayload) :
    Except PyError (Bool × List K8sCall × List MonitorStart) := do
  let os ← getattr_operating_system payload
  let _details := get_image_details cfg os
  let ssh0 : List String :=
    match payload.ssh_keys with
    | some l => l
    | none => []
  let _ssh_keys_list ←
    if ssh0.isEmpty then do
      let legacy ← getattr_ssh_public_key payload
      pure (match legacy with
            | some k => if k.isEmpty then ssh0 else [k]
            | none => ssh0)
    else pure ssh0
  let r ← call_patch_baremetalhost_sshKeysKw
  pure r

/-- `handle_provision_event` (utils.py:173-238): run the body; the
    `except Exception` clause at utils.py:236-238 turns any raised error into
    `False`.  Both error paths fire before any cluster call, so the handler
    never writes a secret, never patches the host, and never registers a
    monitor. -/
def handle_provision_event (cfg : Config) (payload : WebhookPayload) :
    Bool × List K8sCall × List MonitorStart :=
  match handle_provision_event_body cfg payload with
  | Except.ok r => r
  | Except.error _ => (false, [], [])

/-- `handle_deprovision_event` for an `EventWebhookPayload`
    (utils.py:253-293): take the resource name from `payload.data.resource`
    and call `patch_baremetalhost(bmh_name=resource_name, image_url=None)`;
    the audit-log delivery (utils.py:272-284) touches no cluster API and is
    not tracked here. -/
def handle_deprovision_event (cfg : Config) (env : K8sEnv)
    (p : EventWebhookPayload) : Bool × List K8sCall :=
  let r := patch_baremetalhost cfg env p.data.resource.name none none none none
    none none none none
  (r.1, r.2.1)

/-! ## api.py, EVENT_DELETED branch -/

/-- Responses the `EVENT_DELETED` branch of `handle_webhook` can produce. -/
inductive WebhookResponse
  | deprovisionStarted (resource : String)
  | noAction
  | httpError (code : Nat)
  | ignored
deriving Repr, DecidableEq

/-- The `EventWebhookPayload` branch of `handle_webhook` (api.py:86-119):
    parse the three timestamps (a `ValueError` propagates out of the
    endpoint), then apply `if start <= now < end` — a Python chained
    comparison, evaluated left to right with short-circuit — and initiate
    deprovisioning only when it holds. -/
def handle_webhook_deleted (cfg : Config) (env : K8sEnv)
    (p : EventWebhookPayload) : Except String (WebhookResponse × List K8sCall) :=
  if p.event_type = "EVENT_DELETED" then
    match parse_timestamp p.timestamp with
    | Except.error e => Except.error e
    | Except.ok now =>
      match parse_timestamp p.data.start with
      | Except.error e => Except.error e
      | Except.ok startT =>
        match parse_timestamp p.data.endStr with
        | Except.error e => Except.error e
        | Except.ok endT =>
          match pyLe startT now with
          | Except.error e => Except.error e
          | Except.ok b1 =>
            if b1 then
              match pyLt now endT with
              | Except.error e => Except.error e
              | Except.ok b2 =>
                if b2 then
                  let r := handle_deprovision_event cfg env p
                  if r.1 then
                    Except.ok (.deprovisionStarted p.data.resource.name, r.2)
                  else Except.ok (.httpError 500, r.2)
                else Except.ok (.noAction, [])
            else Except.ok (.noAction, [])
  else Except.ok (.ignored, [])

/-! ## Image-format derivation (strict mode) -/

/-- Python `s.endswith(sfx)`, as a character-level suffix test. -/
def strEndsWith (s sfx : String) : Bool := List.isSuffixOf sfx.data s.data

/-- Modelled from the spec: the strict-mode `imageFormat` derivation
    (spec §4.2 and §8) — `.qcow2`→qcow2, `.vmdk`→vmdk, `.iso`→iso, anything
    else→raw.  No implementation of this derivation exists under the
    provided sources (`utils.py` carries only the legacy per-OS table), so
    the definition follows the specification's words. -/
def derive_image_format (image_url : String) : String :=
  if strEndsWith image_url ".qcow2" then "qcow2"
  else if strEndsWith image_url ".vmdk" then "vmdk"
  else if strEndsWith image_url ".iso" then "iso"
  else "raw"

/-! ## Call classifiers and sample fixtures -/

/-- Secret-store calls (create or update of the user-data secret). -/
def isSecretCall : K8sCall → Bool
  | .createSecret _ _ _ => true
  | .patchSecret _ _ _ => true
  | _ => false

/-- Host-resource patch submissions. -/
def isBMHPatchCall : K8sCall → Bool
  | .patchBMH _ _ => true
  | _ => false

/-- A sample configuration used to instantiate hypotheses concretely. -/
def cfg0 : Config :=
  { k8s_namespace := "metal3-system"
    provision_image := "default-provision-image-url"
    provision_checksum := "default-provision-checksum-url"
    provision_checksum_type := "sha256"
    os_images := [("ubuntu", "ubuntu-img-url")]
    os_checksums := [("ubuntu", "ubuntu-chk-url")]
    provisioning_timeout := 600 }

/-- A sample environment in which every cluster call succeeds and the host is
    mid-provisioning. -/
def env0 : K8sEnv :=
  { secretCreate := .ok, secretPatchOk := true, bmhPatchOk := true,
    getBMH := Except.ok "provisioning", watchItems := [] }

end ProvWebhook

namespace ProvWebhook

/-! ## C1 -/

/-- C1: for a Provision intent whose `imageUrl` or `checksumUrl` is missing
    or empty, handling the provision event issues no secret write and no
    patch submission, returns failure, and substitutes no implicit default
    image.  In the provided sources this holds because
    `handle_provision_event` aborts inside its `try` block before any
    outbound call: utils.py:188 reads `payload.operating_system` and
    utils.py:202 passes the keyword `ssh_keys=`, neither of which exists on
    the strict-mode `models.WebhookPayload` / `patch_baremetalhost`
    signature, so the `except` clause returns `False` with no side effects
    (and hence no default-image patch ever reaches the cluster). -/
theorem c1_missing_image_fields_fail_without_side_effects
    (cfg : Config) (payload : WebhookPayload)
    (_h : payload.image_url = none ∨ payload.image_url = some "" ∨
      payload.checksum_url = none ∨ payload.checksum_url = some "") :
    handle_provision_event cfg payload = (false, [], []) := rfl

/-- C1 witness: a concrete Provision payload with no `imageUrl`. -/
theorem c1_witness :
    handle_provision_event cfg0
      { event_type := "EVENT_START", timestamp := "2024-01-01T10:00:00Z",
        event_id := "ev-1", webhook_id := 7, user_id := some "user-1",
        username := none, email := none, ssh_keys := some ["ssh-ed25519 AAA"],
        image_url := none, checksum_url := none, image_format := none,
        event_title := none, event_description := none,
        event_start := "2024-01-01T10:00:00Z", event_end := "2024-01-01T12:00:00Z",
        custom_parameters := none, resource_id := 3, resource_name := "srv-1",
        resource_type := "Server", resource_specs := none,
        resource_location := none, site_id := none, site_name := none } =
      (false, [], []) :=
  c1_missing_image_fields_fail_without_side_effects cfg0 _ (Or.inl rfl)

/-! ## C2 -/

/-- C2: every patch the provision operation submits to the host resource
    targets the requested host and carries `spec.image.url` equal to the
    intent's image URL and `spec.userData` naming `"{resourceName}-userdata"`
    in the configured namespace (kubernetes copy.py:166-196 and 257-309). -/
theorem c2_provision_patch_image_and_userdata
    (cfg : Config) (env : K8sEnv) (bmh_name image_url : String)
    (ssh_key : Option String) (checksum checksum_type : Option String)
    (webhook_id user_id event_id : Option String) (timeout : Option Nat)
    (n : String) (pt : BMHPatch)
    (h : K8sCall.patchBMH n pt ∈
      (provision cfg env bmh_name image_url ssh_key checksum checksum_type
        webhook_id user_id event_id timeout).2.1) :
    n = bmh_name ∧
      pt.image = some { url := image_url, checksum := checksum,
                        checksumType := checksum_type } ∧
      pt.userData = some { name := bmh_name ++ "-userdata",
                           nspace := cfg.k8s_namespace } := by
  revert h
  unfold provision create_or_update _apply_patch _create_provision_patch
  cases hts : truthyStr ssh_key <;>
    cases env.secretCreate <;>
    cases hsp : env.secretPatchOk <;>
    simp_all

/-- C2 witness: a concrete successful provision submits exactly the expected
    patch. -/
theorem c2_witness :
    "host-a" = "host-a" ∧
      (_create_provision_patch cfg0 "http://x/img.qcow2" "host-a"
          (some "http://x/img.sha") (some "sha256")).image =
        some { url := "http://x/img.qcow2", checksum := some "http://x/img.sha",
               checksumType := some "sha256" } ∧
      (_create_provision_patch cfg0 "http://x/img.qcow2" "host-a"
          (some "http://x/img.sha") (some "sha256")).userData =
        some { name := "host-a" ++ "-userdata", nspace := cfg0.k8s_namespace } :=
  c2_provision_patch_image_and_userdata cfg0 env0 "host-a" "http://x/img.qcow2"
    none (some "http://x/img.sha") (some "sha256") none none none none
    "host-a" _ (by simp [provision, _apply_patch, truthyStr])

/-! ## C3 -/

/-- C3: the secret write precedes the provision patch: if the secret write
    fails the operation returns `False` with no patch submission, and in the
    emitted call order every secret-store call comes before every host patch
    (kubernetes copy.py:288-296). -/
theorem c3_secret_write_before_patch
    (cfg : Config) (env : K8sEnv) (bmh_name image_url : String)
    (ssh_key : Option String) (checksum checksum_type : Option String)
    (webhook_id user_id event_id : Option String) (timeout : Option Nat) :
    ((truthyStr ssh_key = true →
      (create_or_update cfg env bmh_name (ssh_key.getD "")).1 = false →
      (provision cfg env bmh_name image_url ssh_key checksum checksum_type
          webhook_id user_id event_id timeout).1 = false ∧
        ((provision cfg env bmh_name image_url ssh_key checksum checksum_type
            webhook_id user_id event_id timeout).2.1.filter isBMHPatchCall) = []) ∧
      ∃ s p, (provision cfg env bmh_name image_url ssh_key checksum checksum_type
          webhook_id user_id event_id timeout).2.1 = s ++ p ∧
        (∀ c ∈ s, isSecretCall c = true) ∧ (∀ c ∈ p, isBMHPatchCall c = true)) := by
  obtain ⟨sc, sp, bp, gb, wi⟩ := env
  constructor
  · intro hts hfail
    cases sc <;>
      simp_all [provision, create_or_update, _apply_patch, isBMHPatchCall]
  · cases hts : truthyStr ssh_key with
    | false =>
      exact ⟨[], [K8sCall.patchBMH bmh_name
          (_create_provision_patch cfg image_url bmh_name checksum checksum_type)],
        by simp [provision, create_or_update, _apply_patch, hts],
        by simp, by simp [isBMHPatchCall]⟩
    | true =>
      cases sc with
      | ok =>
        exact ⟨[K8sCall.createSecret cfg.k8s_namespace (bmh_name ++ "-userdata")
              (generate_cloud_config (ssh_key.getD ""))],
          [K8sCall.patchBMH bmh_name
            (_create_provision_patch cfg image_url bmh_name checksum checksum_type)],
          by simp [provision, create_or_update, _apply_patch, hts],
          by simp [isSecretCall], by simp [isBMHPatchCall]⟩
      | conflict409 =>
        cases hsp : sp with
        | true =>
          exact ⟨[K8sCall.createSecret cfg.k8s_namespace (bmh_name ++ "-userdata")
                (generate_cloud_config (ssh_key.getD "")),
              K8sCall.patchSecret cfg.k8s_namespace (bmh_name ++ "-userdata")
                (generate_cloud_config (ssh_key.getD ""))],
            [K8sCall.patchBMH bmh_name
              (_create_provision_patch cfg image_url bmh_name checksum checksum_type)],
            by simp [provision, create_or_update, _apply_patch, hts],
            by simp [isSecretCall], by simp [isBMHPatchCall]⟩
        | false =>
          exact ⟨[K8sCall.createSecret cfg.k8s_namespace (bmh_name ++ "-userdata")
                (generate_cloud_config (ssh_key.getD "")),
              K8sCall.patchSecret cfg.k8s_namespace (bmh_name ++ "-userdata")
                (generate_cloud_config (ssh_key.getD ""))],
            [],
            by simp [provision, create_or_update, _apply_patch, hts],
            by simp [isSecretCall], by simp⟩
      | otherError =>
        exact ⟨[K8sCall.createSecret cfg.k8s_namespace (bmh_name ++ "-userdata")
              (generate_cloud_config (ssh_key.getD ""))],
          [],
          by simp [provision, create_or_update, _apply_patch, hts],
          by simp [isSecretCall], by simp⟩

/-- C3 witness: with a failing secret creation, provision aborts before any
    patch. -/
theorem c3_witness :
    truthyStr (some "ssh-key") = true ∧
      (create_or_update cfg0
        { env0 with secretCreate := .otherError } "h1" ((some "ssh-key").getD "")).1
        = false ∧
      (provision cfg0 { env0 with secretCreate := .otherError } "h1" "img"
          (some "ssh-key") none none none none none none).1 = false ∧
      ((provision cfg0 { env0 with secretCreate := .otherError } "h1" "img"
          (some "ssh-key") none none none none none none).2.1.filter
            isBMHPatchCall) = [] := by
  refine ⟨by decide, by decide, ?_⟩
  have h := (c3_secret_write_before_patch cfg0
    { env0 with secretCreate := .otherError } "h1" "img" (some "ssh-key")
    none none none none none none).1 (by decide) (by decide)
  exact h

/-! ## C6 -/

/-- C6: the deprovision operation submits exactly one patch, setting
    `spec.image` and `spec.userData` both to absent regardless of prior
    state, and performs no secret read or write
    (kubernetes copy.py:198-210 and 311-322). -/
theorem c6_deprovision_patch_clears_image_and_userdata
    (env : K8sEnv) (bmh_name : String) :
    deprovision env bmh_name =
      (env.bmhPatchOk,
       [K8sCall.patchBMH bmh_name { image := none, userData := none }]) := rfl

/-! ## C8 -/

/-- C8 counterexample: the generator accepts a single key string, so the
    secret generated when an intent supplies the keys
    `["key-one", "key-two"]` (the generator can receive only `"key-one"`)
    carries `["key-one"]` alone — not the intent's full key list — and a
    key list is never empty. -/
theorem c8_counterexample_not_full_key_list :
    (generate_cloud_config "key-one").users.map
        (fun u => (u.name, u.ssh_authorized_keys)) =
      [("restart.admin", none), ("prognose", some ["key-one"])] ∧
      some ["key-one"] ≠ some ["key-one", "key-two"] ∧
      some ["key-one"] ≠ some ([] : List String) := by
  refine ⟨rfl, by decide, by decide⟩

/-- C8 (amended): for every supplied key, the generated cloud-config document
    equals the fixed template with exactly one change — the
    externally-reachable `"prognose"` account's `ssh_authorized_keys` is
    replaced by the singleton list holding that key; the administrative
    account and all other template fields are unchanged
    (kubernetes copy.py:55-75). -/
theorem c8_cloud_config_single_key_change (ssh_key : String) :
    generate_cloud_config ssh_key =
      { ssh_pwauth := CLOUD_CONFIG_TEMPLATE.ssh_pwauth
        groups := CLOUD_CONFIG_TEMPLATE.groups
        users := [adminUser,
                  { prognoseUser with ssh_authorized_keys := some [ssh_key] }] } := by
  simp [generate_cloud_config, CLOUD_CONFIG_TEMPLATE, setPrognoseKeys,
    adminUser, prognoseUser]

/-! ## C9 -/

/-- Appending a suffix makes the suffix test succeed. -/
lemma strEndsWith_append_self (stem sfx : String) :
    strEndsWith (stem ++ sfx) sfx = true := by
  simp [strEndsWith, String.data_append, List.isSuffixOf_iff_suffix,
    List.suffix_append]

/-- A string obtained by appending `sfx` does not end with a string whose
    final character differs from `sfx`'s. -/
lemma strEndsWith_append_ne (stem sfx other : String) (c c2 : Char)
    (hsfx : sfx.data.getLast? = some c)
    (hother : other.data.getLast? = some c2) (hne : c2 ≠ c) :
    strEndsWith (stem ++ sfx) other = false := by
  apply Bool.eq_false_iff.mpr
  intro h
  obtain ⟨t, ht⟩ := List.isSuffixOf_iff_suffix.mp h
  have h1 : (t ++ other.data).getLast? = ((stem ++ sfx).data).getLast? := by
    rw [ht]
  rw [List.getLast?_append, hother, String.data_append, List.getLast?_append,
    hsfx] at h1
  simp at h1
  exact hne h1

/-- C9 (spec-modelled): without an explicit `imageFormat`, the format is
    derived from the image URL's extension: `.qcow2`→qcow2, `.vmdk`→vmdk,
    `.iso`→iso, anything else (including no extension)→raw. -/
theorem c9_image_format_from_extension (stem : String) :
    derive_image_format (stem ++ ".qcow2") = "qcow2" ∧
      derive_image_format (stem ++ ".vmdk") = "vmdk" ∧
      derive_image_format (stem ++ ".iso") = "iso" ∧
      (∀ url : String, strEndsWith url ".qcow2" = false →
        strEndsWith url ".vmdk" = false → strEndsWith url ".iso" = false →
        derive_image_format url = "raw") := by
  refine ⟨?_, ?_, ?_, ?_⟩
  · rw [derive_image_format, strEndsWith_append_self]
    simp
  · rw [derive_image_format,
      strEndsWith_append_ne stem ".vmdk" ".qcow2" 'k' '2' (by decide)
        (by decide) (by decide),
      strEndsWith_append_self]
    simp
  · rw [derive_image_format,
      strEndsWith_append_ne stem ".iso" ".qcow2" 'o' '2' (by decide)
        (by decide) (by decide),
      strEndsWith_append_ne stem ".iso" ".vmdk" 'o' 'k' (by decide)
        (by decide) (by decide),
      strEndsWith_append_self]
    simp
  · intro url h1 h2 h3
    rw [derive_image_format, h1, h2, h3]
    simp

/-- C9 witness: concrete URLs of each shape. -/
theorem c9_witness :
    derive_image_format ("http://repo/img" ++ ".qcow2") = "qcow2" ∧
      derive_image_format ("http://repo/img" ++ ".vmdk") = "vmdk" ∧
      derive_image_format ("http://repo/img" ++ ".iso") = "iso" ∧
      derive_image_format "http://repo/img" = "raw" := by
  obtain ⟨h1, h2, h3, h4⟩ := c9_image_format_from_extension "http://repo/img"
  exact ⟨h1, h2, h3, h4 "http://repo/img" (by decide) (by decide) (by decide)⟩

/-! ## C10 -/

/-- C10: `patch_baremetalhost` takes the provision path (secret write,
    provision patch, monitor registration) exactly when `image_url` is
    truthy; `None` and `""` both select the deprovision patch with no secret
    write and no monitor registration (kubernetes copy.py:585-623). -/
theorem c10_truthy_image_url_dispatch
    (cfg : Config) (env : K8sEnv) (bmh_name : String)
    (image_url ssh_key : Option String) (checksum checksum_type : Option String)
    (webhook_id user_id event_id : Option String) (timeout : Option Nat) :
    ((∀ s, image_url = some s → s ≠ "" →
      patch_baremetalhost cfg env bmh_name image_url ssh_key checksum
          checksum_type webhook_id user_id event_id timeout =
        provision cfg env bmh_name s ssh_key checksum checksum_type
          webhook_id user_id event_id timeout) ∧
      (image_url = none ∨ image_url = some "" →
        patch_baremetalhost cfg env bmh_name image_url ssh_key checksum
            checksum_type webhook_id user_id event_id timeout =
          (env.bmhPatchOk,
           [K8sCall.patchBMH bmh_name { image := none, userData := none }],
           []))) := by
  constructor
  · rintro s rfl hs
    simp [patch_baremetalhost, truthyStr, String.isEmpty_iff, hs]
  · rintro (rfl | rfl) <;>
      simp [patch_baremetalhost, deprovision, _apply_patch,
        _create_deprovision_patch, show truthyStr none = false from rfl,
        show truthyStr (some "") = false from rfl]

/-- C10 witness: an empty-string image URL is treated as deprovisioning; a
    non-empty one as provisioning. -/
theorem c10_witness :
    patch_baremetalhost cfg0 env0 "h2" (some "") none none none none none
        none none =
      (env0.bmhPatchOk,
       [K8sCall.patchBMH "h2" { image := none, userData := none }], []) ∧
      patch_baremetalhost cfg0 env0 "h2" (some "http://x/i.raw") none none none
          none none none none =
        provision cfg0 env0 "h2" "http://x/i.raw" none none none none none
          none none := by
  have h := c10_truthy_image_url_dispatch cfg0 env0 "h2" (some "") none none
    none none none none none
  have h2 := c10_truthy_image_url_dispatch cfg0 env0 "h2"
    (some "http://x/i.raw") none none none none none none none
  exact ⟨h.2 (Or.inr rfl), h2.1 "http://x/i.raw" rfl (by decide)⟩

/-! ## C4 -/

/-- A watch item on which the loop keeps observing: an update-type event in a
    non-terminal state.  Terminal events, `DELETED` events and transport
    faults all make the loop exit. -/
def nonExitItem : WatchItem → Bool
  | .ev etype state =>
    !(((etype = "MODIFIED" || etype = "ADDED") &&
        (state = "provisioned" || state = "error" || state = "failed")) ||
      etype = "DELETED")
  | .fault => false

/-- A stream that never reaches a terminal state exhausts the time budget and
    yields `False` (the timeout outcome). -/
lemma watchLoop_false_of_nonExit (items : List WatchItem)
    (h : ∀ it ∈ items, nonExitItem it = true) : watchLoop items = false := by
  induction items with
  | nil => rfl
  | cons it rest ih =>
    have h1 := h it (List.mem_cons_self it rest)
    have h2 : ∀ x ∈ rest, nonExitItem x = true :=
      fun x hx => h x (List.mem_cons_of_mem it hx)
    have hrest := ih h2
    cases it with
    | fault => simp [nonExitItem] at h1
    | ev etype state =>
      simp only [nonExitItem, Bool.not_eq_true'] at h1
      simp [watchLoop, hrest]
      intro hm hp
      simp_all

/-- C4: (i) if the first direct read already reports `provisioned`, the
    monitor concludes success without opening a watch; (ii) if neither the
    first read nor any event within the time budget reaches a terminal state,
    the monitor's single notification reports failure with the timeout
    message; (iii) every monitor run calls the Outcome Notifier exactly once
    (kubernetes copy.py:324-421 and 460-508). -/
theorem c4_monitor_check_then_watch_exactly_one_notification
    (cfg : Config) (env : K8sEnv) (bmh_name webhook_id user_id : String)
    (event_id : Option String) (timeout : Option Nat) :
    (env.getBMH = Except.ok "provisioned" →
      wait_for_provisioning cfg env bmh_name timeout =
        (true, [K8sCall.getBMH bmh_name])) ∧
    (∀ st, env.getBMH = Except.ok st → st ≠ "provisioned" → st ≠ "error" →
      st ≠ "failed" → (∀ it ∈ env.watchItems, nonExitItem it = true) →
      (_monitor_provisioning_completion cfg env bmh_name webhook_id user_id
          event_id timeout).2 =
        [{ webhook_id := webhook_id, user_id := user_id,
           resource_name := bmh_name, success := false,
           error_message := some "Provisioning timeout or failed",
           event_id := event_id }]) ∧
    (_monitor_provisioning_completion cfg env bmh_name webhook_id user_id
        event_id timeout).2.length = 1 := by
  refine ⟨?_, ?_, ?_⟩
  · intro h
    unfold wait_for_provisioning
    rw [h]
    simp
  · intro st hst hp he hf hall
    unfold _monitor_provisioning_completion wait_for_provisioning
    rw [hst]
    simp [hp, he, hf, watchLoop_false_of_nonExit env.watchItems hall]
  · unfold _monitor_provisioning_completion
    simp

/-- An environment whose host is already provisioned at the first read. -/
def envProvisioned : K8sEnv :=
  { secretCreate := .ok, secretPatchOk := true, bmhPatchOk := true,
    getBMH := Except.ok "provisioned", watchItems := [] }

/-- An environment whose host stays in non-terminal states until the watch
    budget lapses. -/
def envTimesOut : K8sEnv :=
  { secretCreate := .ok, secretPatchOk := true, bmhPatchOk := true,
    getBMH := Except.ok "provisioning",
    watchItems := [WatchItem.ev "MODIFIED" "provisioning",
                   WatchItem.ev "MODIFIED" "inspecting"] }

/-- C4 witness: a host already provisioned at first read, and a run whose
    stream stays non-terminal until the budget lapses. -/
theorem c4_witness :
    wait_for_provisioning cfg0 envProvisioned "h3" none =
      (true, [K8sCall.getBMH "h3"]) ∧
    (_monitor_provisioning_completion cfg0 envTimesOut
        "h3" "wh-9" "user-9" none none).2 =
      [{ webhook_id := "wh-9", user_id := "user-9", resource_name := "h3",
         success := false,
         error_message := some "Provisioning timeout or failed",
         event_id := none }] ∧
    (_monitor_provisioning_completion cfg0 env0 "h3" "wh-9" "user-9" none
        none).2.length = 1 := by
  refine ⟨?_, ?_, ?_⟩
  · exact (c4_monitor_check_then_watch_exactly_one_notification cfg0
      envProvisioned "h3" "wh-9" "user-9" none none).1 rfl
  · exact (c4_monitor_check_then_watch_exactly_one_notification cfg0
      envTimesOut "h3" "wh-9" "user-9" none none).2.1 "provisioning" rfl
      (by decide) (by decide) (by decide) (by decide)
  · exact (c4_monitor_check_then_watch_exactly_one_notification cfg0 env0
      "h3" "wh-9" "user-9" none none).2.2

/-! ## C5 -/

/-- C5: for a reservation-deleted event with parsed timestamps `now`,
    `start`, `end`, deprovisioning is initiated exactly when
    `start <= now < end` holds; otherwise no cluster call is made
    (api.py:86-116). -/
theorem c5_reservation_deleted_half_open_interval
    (cfg : Config) (env : K8sEnv) (p : EventWebhookPayload)
    (now startT endT : PyDatetime) (b1 b2 : Bool)
    (hev : p.event_type = "EVENT_DELETED")
    (hnow : parse_timestamp p.timestamp = Except.ok now)
    (hstart : parse_timestamp p.data.start = Except.ok startT)
    (hend : parse_timestamp p.data.endStr = Except.ok endT)
    (hb1 : pyLe startT now = Except.ok b1)
    (hb2 : pyLt now endT = Except.ok b2) :
    (b1 = true → b2 = true →
      handle_webhook_deleted cfg env p =
        Except.ok
          ((if env.bmhPatchOk then
              WebhookResponse.deprovisionStarted p.data.resource.name
            else WebhookResponse.httpError 500),
           [K8sCall.patchBMH p.data.resource.name
              { image := none, userData := none }])) ∧
    (b1 = false ∨ b2 = false →
      handle_webhook_deleted cfg env p =
        Except.ok (WebhookResponse.noAction, [])) := by
  constructor
  · rintro rfl rfl
    cases hbp : env.bmhPatchOk <;>
      simp [handle_webhook_deleted, hev, hnow, hstart, hend, hb1, hb2,
        handle_deprovision_event, patch_baremetalhost, deprovision,
        _apply_patch, _create_deprovision_patch,
        show truthyStr none = false from rfl, hbp]
  · rintro (rfl | rfl)
    · simp [handle_webhook_deleted, hev, hnow, hstart, hend, hb1]
    · cases b1 <;>
        simp [handle_webhook_deleted, hev, hnow, hstart, hend, hb1, hb2]

/-- A reservation-deleted payload over the window
    `[2024-01-01T10:00, 2024-01-01T12:00)`, deleted at `ts`. -/
def p5 (ts : String) : EventWebhookPayload :=
  { event_type := "EVENT_DELETED", timestamp := ts, webhook_id := "wh-5",
    data := { id := 42, start := "2024-01-01T10:00:00Z",
              endStr := "2024-01-01T12:00:00Z", custom_parameters := none,
              resource := { name := "res-5", id := 9, specs := none,
                            location := none },
              keycloak_id := none } }

/-- C5 witness: deletion at `now = start` deprovisions; at `now = end` and
    before `start`, no action. -/
theorem c5_witness :
    handle_webhook_deleted cfg0 env0 (p5 "2024-01-01T10:00:00Z") =
      Except.ok (WebhookResponse.deprovisionStarted "res-5",
        [K8sCall.patchBMH "res-5" { image := none, userData := none }]) ∧
    handle_webhook_deleted cfg0 env0 (p5 "2024-01-01T12:00:00Z") =
      Except.ok (WebhookResponse.noAction, []) ∧
    handle_webhook_deleted cfg0 env0 (p5 "2024-01-01T09:59:59Z") =
      Except.ok (WebhookResponse.noAction, []) := by
  refine ⟨?_, ?_, ?_⟩
  · have h := (c5_reservation_deleted_half_open_interval cfg0 env0
      (p5 "2024-01-01T10:00:00Z")
      ⟨2024, 1, 1, 10, 0, 0, 0, some 0⟩ ⟨2024, 1, 1, 10, 0, 0, 0, some 0⟩
      ⟨2024, 1, 1, 12, 0, 0, 0, some 0⟩ true true rfl rfl rfl rfl rfl rfl).1
      rfl rfl
    simpa [env0] using h
  · exact (c5_reservation_deleted_half_open_interval cfg0 env0
      (p5 "2024-01-01T12:00:00Z")
      ⟨2024, 1, 1, 12, 0, 0, 0, some 0⟩ ⟨2024, 1, 1, 10, 0, 0, 0, some 0⟩
      ⟨2024, 1, 1, 12, 0, 0, 0, some 0⟩ true false rfl rfl rfl rfl rfl rfl).2
      (Or.inr rfl)
  · exact (c5_reservation_deleted_half_open_interval cfg0 env0
      (p5 "2024-01-01T09:59:59Z")
      ⟨2024, 1, 1, 9, 59, 59, 0, some 0⟩ ⟨2024, 1, 1, 10, 0, 0, 0, some 0⟩
      ⟨2024, 1, 1, 12, 0, 0, 0, some 0⟩ false true rfl rfl rfl rfl rfl rfl).2
      (Or.inl rfl)

/-! ## C7 -/

lemma replaceZ_append (a b : List Char) :
    replaceZ (a ++ b) = replaceZ a ++ replaceZ b := by
  induction a with
  | nil => rfl
  | cons c cs ih => by_cases h : c = 'Z' <;> simp [replaceZ, h, ih]

lemma replaceZ_of_no_z {l : List Char} (h : ∀ c ∈ l, c ≠ 'Z') :
    replaceZ l = l := by
  induction l with
  | nil => rfl
  | cons c cs ih =>
    simp [replaceZ, h c (List.mem_cons_self c cs),
      ih (fun x hx => h x (List.mem_cons_of_mem c hx))]

lemma containsChar_append (c : Char) (a b : List Char) :
    containsChar c (a ++ b) = (containsChar c a || containsChar c b) := by
  induction a with
  | nil => rfl
  | cons x xs ih => simp [containsChar, ih, Bool.or_assoc]

lemma rsplitOnce_of_all_ne {sep : Char} {l : List Char}
    (h : ∀ x ∈ l, x ≠ sep) : rsplitOnce sep l = none := by
  induction l with
  | nil => rfl
  | cons x xs ih =>
    simp [rsplitOnce, ih (fun y hy => h y (List.mem_cons_of_mem x hy)),
      h x (List.mem_cons_self x xs)]

lemma rsplitOnce_last {sep : Char} (a : List Char) {b : List Char}
    (h : ∀ x ∈ b, x ≠ sep) : rsplitOnce sep (a ++ sep :: b) = some (a, b) := by
  induction a with
  | nil => simp [rsplitOnce, rsplitOnce_of_all_ne h]
  | cons x xs ih => simp [rsplitOnce, ih]

lemma fracFix_of_six_le {l : List Char} (h : 6 ≤ l.length) :
    fracFix l = l.take 6 := by
  have ht : (l.take 6).length = 6 := by
    rw [List.length_take]
    omega
  simp [fracFix, padSixZeros, ht]

lemma pyIsDigit_ne {c : Char} (h : pyIsDigit c = true) :
    c ≠ 'Z' ∧ c ≠ '+' ∧ c ≠ '-' ∧ c ≠ '.' ∧ c ≠ ':' := by
  refine ⟨?_, ?_, ?_, ?_, ?_⟩ <;> rintro rfl <;> exact absurd h (by decide)

/-- `preprocessChars` truncates an over-precise fractional part to six digits
    in place, leaving the date-time body and the UTC offset untouched. -/
lemma preprocess_truncates_core (dt frac tz : List Char)
    (hzdt : ∀ c ∈ dt, c ≠ 'Z') (hzfr : ∀ c ∈ frac, c ≠ 'Z')
    (hztz : ∀ c ∈ tz, c ≠ 'Z')
    (hdot : ∀ c ∈ frac, c ≠ '.') (hplus : ∀ c ∈ tz, c ≠ '+')
    (hlen : 6 ≤ frac.length) :
    preprocessChars (dt ++ '.' :: frac ++ '+' :: tz) =
      some (dt ++ '.' :: frac.take 6 ++ '+' :: tz) := by
  have hrep : replaceZ (dt ++ '.' :: (frac ++ '+' :: tz)) =
      dt ++ '.' :: (frac ++ '+' :: tz) := by
    apply replaceZ_of_no_z
    intro c hc
    rcases List.mem_append.mp hc with hc | hc
    · exact hzdt c hc
    · rcases List.mem_cons.mp hc with rfl | hc
      · decide
      · rcases List.mem_append.mp hc with hc | hc
        · exact hzfr c hc
        · rcases List.mem_cons.mp hc with rfl | hc
          · decide
          · exact hztz c hc
  have hdot_all : containsChar '.' (dt ++ '.' :: (frac ++ '+' :: tz)) = true := by
    simp [containsChar_append, containsChar]
  have hplus_all : containsChar '+' (dt ++ '.' :: (frac ++ '+' :: tz)) = true := by
    simp [containsChar_append, containsChar]
  have hsplit1 : rsplitOnce '+' (dt ++ '.' :: (frac ++ '+' :: tz)) =
      some (dt ++ '.' :: frac, tz) := by
    have h := @rsplitOnce_last '+' (dt ++ '.' :: frac) tz hplus
    simpa using h
  have hsplit2 : rsplitOnce '.' (dt ++ '.' :: frac) = some (dt, frac) :=
    rsplitOnce_last dt hdot
  unfold preprocessChars
  simp [hrep, hdot_all, hplus_all, hsplit1, hsplit2, fracFix_of_six_le hlen]

/-- `preprocessChars` only inspects the `'Z'`-normalised form of its input. -/
lemma preprocess_stable (L M : List Char) (h1 : replaceZ L = M)
    (h2 : replaceZ M = M) : preprocessChars L = preprocessChars M := by
  unfold preprocessChars
  rw [h1, h2]

lemma replaceZ_fixed_dt_frac (dt frac : List Char)
    (hzdt : ∀ c ∈ dt, c ≠ 'Z') (hzfr : ∀ c ∈ frac, c ≠ 'Z') :
    replaceZ (dt ++ '.' :: frac ++ '+' :: '0' :: '0' :: ':' :: '0' :: '0' :: []) =
      dt ++ '.' :: frac ++ '+' :: '0' :: '0' :: ':' :: '0' :: '0' :: [] := by
  apply replaceZ_of_no_z
  intro c hc
  rcases List.mem_append.mp hc with hc | hc
  · rcases List.mem_append.mp hc with hc | hc
    · exact hzdt c hc
    · rcases List.mem_cons.mp hc with rfl | hc
      · decide
      · exact hzfr c hc
  · fin_cases hc <;> decide

lemma replaceZ_trailing_z (dt frac : List Char)
    (hzdt : ∀ c ∈ dt, c ≠ 'Z') (hzfr : ∀ c ∈ frac, c ≠ 'Z') :
    replaceZ (dt ++ '.' :: frac ++ ['Z']) =
      dt ++ '.' :: frac ++ '+' :: '0' :: '0' :: ':' :: '0' :: '0' :: [] := by
  have hno : ∀ c ∈ dt ++ '.' :: frac, c ≠ 'Z' := by
    intro c hc
    rcases List.mem_append.mp hc with hc | hc
    · exact hzdt c hc
    · rcases List.mem_cons.mp hc with rfl | hc
      · decide
      · exact hzfr c hc
  rw [replaceZ_append, replaceZ_of_no_z hno]
  rfl

/-- C7: the normalisation performed by `parse_timestamp` truncates (never
    rounds) fractional seconds to six digits before conversion, a trailing
    `'Z'` is accepted as the `+00:00` UTC designator, and malformed inputs
    yield the `ValueError` message.  Conjunct 1: the in-place truncation of
    the fraction for any date-time body and offset.  Conjunct 2: parsing an
    over-precise timestamp equals parsing the same timestamp with the
    fraction cut at six digits.  Conjunct 3: a trailing `'Z'` parses exactly
    as `"+00:00"`.  Conjunct 4: concrete evaluations, including
    `.9999999 ↦ 999999` microseconds (truncation, not rounding), a naive
    variant without the designator, and two malformed inputs
    (utils.py:77-114). -/
theorem c7_parse_timestamp_truncates_accepts_z_rejects_malformed :
    (∀ dt frac tz : List Char, (∀ c ∈ dt, c ≠ 'Z') → (∀ c ∈ frac, c ≠ 'Z') →
      (∀ c ∈ tz, c ≠ 'Z') → (∀ c ∈ frac, c ≠ '.') → (∀ c ∈ tz, c ≠ '+') →
      6 ≤ frac.length →
      preprocessChars (dt ++ '.' :: frac ++ '+' :: tz) =
        some (dt ++ '.' :: frac.take 6 ++ '+' :: tz)) ∧
    (∀ dt frac : List Char, (∀ c ∈ dt, c ≠ 'Z') →
      (∀ c ∈ frac, pyIsDigit c = true) → 6 ≤ frac.length →
      parse_timestamp (String.mk (dt ++ '.' :: frac ++ ['Z'])) =
        parse_timestamp (String.mk (dt ++ '.' :: frac.take 6 ++ ['Z']))) ∧
    (∀ dt : List Char, (∀ c ∈ dt, c ≠ 'Z') →
      parse_timestamp (String.mk (dt ++ ['Z'])) =
        parse_timestamp
          (String.mk (dt ++ '+' :: '0' :: '0' :: ':' :: '0' :: '0' :: []))) ∧
    (parse_timestamp "2024-03-05T06:07:08.9999999Z" =
        Except.ok ⟨2024, 3, 5, 6, 7, 8, 999999, some 0⟩ ∧
      parse_timestamp "2024-03-05T06:07:08.1234567" =
        Except.ok ⟨2024, 3, 5, 6, 7, 8, 123456, none⟩ ∧
      parse_timestamp "2024-03-05X06!07" =
        Except.error "Invalid timestamp format" ∧
      parse_timestamp "not-a-timestamp" =
        Except.error "Invalid timestamp format") := by
  refine ⟨preprocess_truncates_core, ?_, ?_, rfl, rfl, rfl, rfl⟩
  · intro dt frac hzdt hdig hlen
    have hfz : ∀ c ∈ frac, c ≠ 'Z' := fun c hc => (pyIsDigit_ne (hdig c hc)).1
    have hfd : ∀ c ∈ frac, c ≠ '.' :=
      fun c hc => (pyIsDigit_ne (hdig c hc)).2.2.2.1
    have h6z : ∀ c ∈ frac.take 6, c ≠ 'Z' :=
      fun c hc => hfz c (List.take_subset 6 frac hc)
    have h6d : ∀ c ∈ frac.take 6, c ≠ '.' :=
      fun c hc => hfd c (List.take_subset 6 frac hc)
    have h6len : 6 ≤ (frac.take 6).length := by
      rw [List.length_take]
      omega
    have hpre1 : preprocessChars (dt ++ '.' :: frac ++ ['Z']) =
        some (dt ++ '.' :: frac.take 6 ++
          '+' :: '0' :: '0' :: ':' :: '0' :: '0' :: []) := by
      rw [preprocess_stable _ _ (replaceZ_trailing_z dt frac hzdt hfz)
        (replaceZ_fixed_dt_frac dt frac hzdt hfz)]
      exact preprocess_truncates_core dt frac
        ('0' :: '0' :: ':' :: '0' :: '0' :: []) hzdt hfz (by decide) hfd
        (by decide) hlen
    have hpre2 : preprocessChars (dt ++ '.' :: frac.take 6 ++ ['Z']) =
        some (dt ++ '.' :: frac.take 6 ++
          '+' :: '0' :: '0' :: ':' :: '0' :: '0' :: []) := by
      rw [preprocess_stable _ _ (replaceZ_trailing_z dt (frac.take 6) hzdt h6z)
        (replaceZ_fixed_dt_frac dt (frac.take 6) hzdt h6z)]
      have := preprocess_truncates_core dt (frac.take 6)
        ('0' :: '0' :: ':' :: '0' :: '0' :: []) hzdt h6z (by decide)
        h6d (by decide) h6len
      simpa [List.take_take] using this
    unfold parse_timestamp
    rw [show (String.mk (dt ++ '.' :: frac ++ ['Z'])).data =
        dt ++ '.' :: frac ++ ['Z'] from rfl,
      show (String.mk (dt ++ '.' :: frac.take 6 ++ ['Z'])).data =
        dt ++ '.' :: frac.take 6 ++ ['Z'] from rfl,
      hpre1, hpre2]
  · intro dt hzdt
    have e1 : replaceZ (dt ++ ['Z']) =
        dt ++ '+' :: '0' :: '0' :: ':' :: '0' :: '0' :: [] := by
      rw [replaceZ_append, replaceZ_of_no_z hzdt]
      rfl
    have e2 : replaceZ (dt ++ '+' :: '0' :: '0' :: ':' :: '0' :: '0' :: []) =
        dt ++ '+' :: '0' :: '0' :: ':' :: '0' :: '0' :: [] := by
      apply replaceZ_of_no_z
      intro c hc
      rcases List.mem_append.mp hc with hc | hc
      · exact hzdt c hc
      · fin_cases hc <;> decide
    unfold parse_timestamp
    rw [show (String.mk (dt ++ ['Z'])).data = dt ++ ['Z'] from rfl,
      show (String.mk (dt ++ '+' :: '0' :: '0' :: ':' :: '0' :: '0' :: [])).data =
        dt ++ '+' :: '0' :: '0' :: ':' :: '0' :: '0' :: [] from rfl,
      preprocess_stable _ _ e1 e2]

/-- C7 witness: each quantified conjunct instantiated on the concrete
    over-precise fraction `1234567`. -/
theorem c7_witness :
    preprocessChars ("2024-03-05T06:07:08".data ++ '.' :: "1234567".data ++
        '+' :: "00:00".data) =
      some ("2024-03-05T06:07:08".data ++ '.' :: "1234567".data.take 6 ++
        '+' :: "00:00".data) ∧
    parse_timestamp
        (String.mk ("2024-03-05T06:07:08".data ++ '.' :: "1234567".data ++
          ['Z'])) =
      parse_timestamp
        (String.mk ("2024-03-05T06:07:08".data ++ '.' ::
          "1234567".data.take 6 ++ ['Z'])) ∧
    parse_timestamp (String.mk ("2024-03-05T06:07:08".data ++ ['Z'])) =
      parse_timestamp
        (String.mk ("2024-03-05T06:07:08".data ++
          '+' :: '0' :: '0' :: ':' :: '0' :: '0' :: [])) := by
  refine ⟨?_, ?_, ?_⟩
  · exact c7_parse_timestamp_truncates_accepts_z_rejects_malformed.1
      "2024-03-05T06:07:08".data "1234567".data "00:00".data (by decide)
      (by decide) (by decide) (by decide) (by decide) (by decide)
  · exact c7_parse_timestamp_truncates_accepts_z_rejects_malformed.2.1
      "2024-03-05T06:07:08".data "1234567".data (by decide) (by decide)
      (by decide)
  · exact c7_parse_timestamp_truncates_accepts_z_rejects_malformed.2.2.1
      "2024-03-05T06:07:08".data (by decide)

end ProvWebhook
